import Mathlib

/-!
Shallow embedding of `src/langgraphagents2.py` (SaMD Agentic AI Launch
Assessor) and verification of its specification.

Modelling conventions:
* A pandas row is modelled as a structure with one field per required
  column.  The six columns that the code coerces with `int(...)` are
  modelled as `Int`; `Country`, `Country_Wealth` and `Predicate_US` are
  kept as the display strings that Python interpolates into prompts;
  `Population` is an `Int` (a numeric cell).
* The global `llm` client is passed as an explicit parameter of type
  `LLM`; a call `llm.invoke([SystemMessage s, HumanMessage p])` becomes
  an application of that parameter to an `LLMRequest`, returning either
  the response text or a `GenError` (provider failure, i.e. a Python
  exception from the call).
* Python f-strings become explicit string concatenation; the text of
  each prompt is reproduced from the source, including its newlines and
  the four-space indentation of the f-string bodies.
* A stage function returns the list of generation requests it issued
  (so that call counts and request contents can be stated) together
  with either the updated state or the error that the Python code would
  raise (`GenError` from the client, or a `KeyError` on a missing dict
  key, modelled as `StageError.missingKey`).
-/

namespace Samd

set_option maxRecDepth 100000

/-- Decidable equality on `Except`, used to evaluate pipeline results
on concrete inputs. -/
instance {ε α : Type} [DecidableEq ε] [DecidableEq α] : DecidableEq (Except ε α) := fun a b =>
  match a, b with
  | .ok x, .ok y => if h : x = y then .isTrue (by rw [h]) else .isFalse (by simp [h])
  | .error x, .error y => if h : x = y then .isTrue (by rw [h]) else .isFalse (by simp [h])
  | .ok _, .error _ => .isFalse (by simp)
  | .error _, .ok _ => .isFalse (by simp)

/-- One validated input row of the uploaded survey table, one field per
required column of `required_columns` in the source. -/
structure InputRow where
  Country : String
  Risk_Class : Int
  Medical_Incidence : Int
  Tech_Limitations : Int
  Predicate_US : String
  Population : Int
  Country_Wealth : String
  Market_Maturity : Int
  Affiliate_Readiness : Int
  Digital_Readiness : Int
deriving DecidableEq, Repr

/-- Embedding of `calculate_scores` (source lines 36-39): returns the
pair `(risk_score, readiness_score)`. -/
def calculate_scores (row : InputRow) : Int × Int :=
  ((5 - row.Risk_Class) + row.Medical_Incidence + (3 - row.Tech_Limitations),
   row.Market_Maturity + row.Affiliate_Readiness + row.Digital_Readiness)

/-- A row after the derived columns `Risk_Score` and `Readiness_Score`
have been appended (source lines 183-185). -/
structure Row extends InputRow where
  Risk_Score : Int
  Readiness_Score : Int
deriving DecidableEq, Repr

/-- Appending the two derived score columns to a row, as done by
`df.apply(lambda row: pd.Series(calculate_scores(row)), axis=1)`. -/
def score_row (r : InputRow) : Row :=
  { toInputRow := r
    Risk_Score := (calculate_scores r).1
    Readiness_Score := (calculate_scores r).2 }

/-- The mutable LangGraph state dict: the embedded row plus the four
narrative fields, absent (`none`) until their stage has run. -/
structure AgentState where
  row : Row
  risk_summary : Option String := none
  opportunity_summary : Option String := none
  readiness_summary : Option String := none
  final_decision : Option String := none
deriving DecidableEq, Repr

/-- The state passed to `agent_graph.invoke` for one row: only the
`row` key is present (source line 192). -/
def init_state (row : Row) : AgentState :=
  { row := row }

/-- One request to the text-generation capability: the content of the
`SystemMessage` and the content of the `HumanMessage`. -/
structure LLMRequest where
  system : String
  prompt : String
deriving DecidableEq, Repr

/-- A failure of the text-generation call (timeout, provider error,
...), opaque to the core. -/
structure GenError where
  msg : String
deriving DecidableEq, Repr

/-- An error that aborts the processing of one record: a failed
generation call, or a Python `KeyError` on a missing state key. -/
inductive StageError where
  | gen : GenError → StageError
  | missingKey : String → StageError
deriving DecidableEq, Repr

/-- The text-generation capability: a synchronous request either
returns response text or fails. -/
abbrev LLM := LLMRequest → Except GenError String

/-- State-dict key names used by the stages. -/
def risk_summary_key : String := "risk_summary"

def opportunity_summary_key : String := "opportunity_summary"

def readiness_summary_key : String := "readiness_summary"

/-- System message of the risk stage (source line 62). -/
def risk_system : String := "You are a Regulatory and Clinical Risk Expert."

/-- System message of the opportunity stage (source line 88). -/
def opportunity_system : String := "You are a financial and opportunity analyst for healthcare markets."

/-- System message of the readiness stage (source line 113). -/
def readiness_system : String := "You are a digital infrastructure and readiness analyst."

/-- System message of the decision stage (source line 146). -/
def decision_system : String := "You are responsible for SaMD global strategy."

/-- The f-string prompt of `risk_impact_evaluator` (source lines 44-60). -/
def risk_prompt (row : Row) : String :=
  "\n    You are a Regulatory and Clinical Risk Expert for Software as a Medical Device (SaMD).\n\n"
  ++ "    Assess the **clinical and technical risk** for launching a SaMD in " ++ row.Country ++ ".\n\n"
  ++ "    Input:\n"
  ++ "    - Risk Class (1-5): " ++ toString row.Risk_Class ++ "\n"
  ++ "    - Medical Incidence (1-3): " ++ toString row.Medical_Incidence ++ "\n"
  ++ "    - Technical Limitations (1-3): " ++ toString row.Tech_Limitations ++ "\n"
  ++ "    - Predicate Device in US: " ++ row.Predicate_US ++ "\n"
  ++ "    - Population: " ++ toString row.Population ++ "\n\n"
  ++ "    Provide:\n"
  ++ "    - Structured Risk Summary\n"
  ++ "    - Clinical & Technical Risk Factors\n"
  ++ "    - Final Risk Impact Level (Low / Medium / High)\n    "

/-- The f-string prompt of `opportunity_roi_assessor` (source lines
70-86); it interpolates the risk narrative produced by the previous
stage. -/
def opportunity_prompt (row : Row) (risk_summary : String) : String :=
  "\n    You are a Market Opportunity and ROI Analyst for global med-tech products.\n\n"
  ++ "    Based on the below, assess the **market potential** and **economic viability** for launching a SaMD in " ++ row.Country ++ ".\n\n"
  ++ "    Input:\n"
  ++ "    - Risk Score: " ++ toString row.Risk_Score ++ "\n"
  ++ "    - Country Wealth: " ++ row.Country_Wealth ++ "\n"
  ++ "    - Population: " ++ toString row.Population ++ "\n"
  ++ "    - Risk Summary:\n"
  ++ "    " ++ risk_summary ++ "\n\n"
  ++ "    Provide:\n"
  ++ "    - Market Opportunity Overview\n"
  ++ "    - Country Wealth and ROI Alignment\n"
  ++ "    - ROI Summary (High / Medium / Low)\n    "

/-- The f-string prompt of `readiness_capability_analyzer` (source
lines 96-111); it uses the row only — no prior narrative. -/
def readiness_prompt (row : Row) : String :=
  "\n    You are a Market Readiness & Infrastructure Specialist.\n\n"
  ++ "    Analyze the digital and organizational readiness to support a SaMD launch in " ++ row.Country ++ ".\n\n"
  ++ "    Inputs:\n"
  ++ "    - Market Maturity: " ++ toString row.Market_Maturity ++ "\n"
  ++ "    - Affiliate Readiness: " ++ toString row.Affiliate_Readiness ++ "\n"
  ++ "    - Digital Readiness: " ++ toString row.Digital_Readiness ++ "\n"
  ++ "    - Readiness Score: " ++ toString row.Readiness_Score ++ "\n\n"
  ++ "    Provide:\n"
  ++ "    - Readiness Overview\n"
  ++ "    - Infrastructure Strengths & Gaps\n"
  ++ "    - Final Readiness Verdict (Ready / Needs Improvement / Not Ready)\n    "

/-- The f-string prompt of `strategic_decision_coordinator` (source
lines 121-144); it interpolates the country and the three prior
narratives. -/
def decision_prompt (row : Row) (risk_summary opportunity_summary readiness_summary : String) : String :=
  "\n    You are a senior strategic executive in a global med-tech company.\n\n"
  ++ "    Make a **go-to-market** decision for the SaMD launch in " ++ row.Country ++ " using the following insights:\n\n"
  ++ "    1. Risk Summary:\n"
  ++ "    " ++ risk_summary ++ "\n\n"
  ++ "    2. Market Opportunity:\n"
  ++ "    " ++ opportunity_summary ++ "\n\n"
  ++ "    3. Readiness Overview:\n"
  ++ "    " ++ readiness_summary ++ "\n\n"
  ++ "    Use all dimensions to decide.\n\n"
  ++ "    Respond in this strict format:\n"
  ++ "    Decision: [Launch / Hold / Reject]\n"
  ++ "    Explanation:\n"
  ++ "    - Risk-Based Justification\n"
  ++ "    - ROI Justification\n"
  ++ "    - Readiness Justification\n"
  ++ "    - Final Synthesis\n    "

/-- Embedding of the `risk_impact_evaluator` node (source lines 42-66):
issue one generation request built from the row and, on success, store
the response under `risk_summary`. -/
def risk_impact_evaluator (llm : LLM) (state : AgentState) :
    List LLMRequest × Except StageError AgentState :=
  let req : LLMRequest := { system := risk_system, prompt := risk_prompt state.row }
  match llm req with
  | .ok content => ([req], .ok { state with risk_summary := some content })
  | .error e => ([req], .error (.gen e))

/-- Embedding of the `opportunity_roi_assessor` node (source lines
68-92): the prompt reads `state['risk_summary']` (a `KeyError` if the
key is absent), and the response is stored under
`opportunity_summary`. -/
def opportunity_roi_assessor (llm : LLM) (state : AgentState) :
    List LLMRequest × Except StageError AgentState :=
  match state.risk_summary with
  | none => ([], .error (.missingKey risk_summary_key))
  | some rs =>
    let req : LLMRequest := { system := opportunity_system, prompt := opportunity_prompt state.row rs }
    match llm req with
    | .ok content => ([req], .ok { state with opportunity_summary := some content })
    | .error e => ([req], .error (.gen e))

/-- Embedding of the `readiness_capability_analyzer` node (source lines
94-117): the prompt is built from the row alone, and the response is
stored under `readiness_summary`. -/
def readiness_capability_analyzer (llm : LLM) (state : AgentState) :
    List LLMRequest × Except StageError AgentState :=
  let req : LLMRequest := { system := readiness_system, prompt := readiness_prompt state.row }
  match llm req with
  | .ok content => ([req], .ok { state with readiness_summary := some content })
  | .error e => ([req], .error (.gen e))

/-- Embedding of the `strategic_decision_coordinator` node (source
lines 119-150): the prompt reads the three prior narratives from the
state (a `KeyError` on whichever is absent first, in f-string
evaluation order), and the response is stored — uninspected — under
`final_decision`. -/
def strategic_decision_coordinator (llm : LLM) (state : AgentState) :
    List LLMRequest × Except StageError AgentState :=
  match state.risk_summary with
  | none => ([], .error (.missingKey risk_summary_key))
  | some rs =>
    match state.opportunity_summary with
    | none => ([], .error (.missingKey opportunity_summary_key))
    | some os =>
      match state.readiness_summary with
      | none => ([], .error (.missingKey readiness_summary_key))
      | some rds =>
        let req : LLMRequest :=
          { system := decision_system, prompt := decision_prompt state.row rs os rds }
        match llm req with
        | .ok content => ([req], .ok { state with final_decision := some content })
        | .error e => ([req], .error (.gen e))

/-- Embedding of `agent_graph.invoke` for one row: the compiled graph
(source lines 153-165) is the fixed linear chain risk → opportunity →
readiness → decision, each stage running only if the previous one
succeeded.  Returns the generation requests issued, in order, and the
final state or the first error. -/
def agent_graph_invoke (llm : LLM) (row : Row) :
    List LLMRequest × Except StageError AgentState :=
  let p1 := risk_impact_evaluator llm (init_state row)
  match p1.2 with
  | .error e => (p1.1, .error e)
  | .ok s1 =>
    let p2 := opportunity_roi_assessor llm s1
    match p2.2 with
    | .error e => (p1.1 ++ p2.1, .error e)
    | .ok s2 =>
      let p3 := readiness_capability_analyzer llm s2
      match p3.2 with
      | .error e => (p1.1 ++ p2.1 ++ p3.1, .error e)
      | .ok s3 =>
        let p4 := strategic_decision_coordinator llm s3
        match p4.2 with
        | .error e => (p1.1 ++ p2.1 ++ p3.1 ++ p4.1, .error e)
        | .ok s4 => (p1.1 ++ p2.1 ++ p3.1 ++ p4.1, .ok s4)

/-- The successive Assessment States reached while the graph runs on
one row: the initial state followed by the state after each stage that
executed, cut short at the first failing stage. -/
def pipeline_states (llm : LLM) (row : Row) : List AgentState :=
  let s0 := init_state row
  s0 :: (match (risk_impact_evaluator llm s0).2 with
  | .error _ => []
  | .ok s1 => s1 :: (match (opportunity_roi_assessor llm s1).2 with
    | .error _ => []
    | .ok s2 => s2 :: (match (readiness_capability_analyzer llm s2).2 with
      | .error _ => []
      | .ok s3 => s3 :: (match (strategic_decision_coordinator llm s3).2 with
        | .error _ => []
        | .ok s4 => [s4]))))

/-- One row of the output report (source lines 200-206): exactly the
five fields appended to `results` for a record whose four stages all
succeeded.  Underscores stand in for the spaces in the source dict
keys. -/
structure ResultRow where
  Country : String
  Risk_Summary : String
  Opportunity_Summary : String
  Readiness_Summary : String
  Final_Decision : String
deriving DecidableEq, Repr

/-- Building one output row from the input row and the final state, as
in `results.append({...})`.  The narrative keys are only read after a
successful run, in which case they are present; `getD` with an empty
default keeps the function total. -/
def make_result (row : Row) (state : AgentState) : ResultRow :=
  { Country := row.Country
    Risk_Summary := (state.risk_summary).getD ("")
    Opportunity_Summary := (state.opportunity_summary).getD ("")
    Readiness_Summary := (state.readiness_summary).getD ("")
    Final_Decision := (state.final_decision).getD ("") }

/-- Embedding of the `for idx, row in df.iterrows()` loop (source lines
190-206).  The loop body has no exception handling: an error raised by
`agent_graph.invoke` propagates and stops the script, so no further row
is processed and the `results` list is never consumed.  Returns the
generation requests issued, the completed result rows (those fully
assessed before any failure), and the first error if one occurred. -/
def results_loop (llm : LLM) : List Row → List LLMRequest × List ResultRow × Option StageError
  | [] => ([], [], none)
  | row :: rest =>
    let p := agent_graph_invoke llm row
    match p.2 with
    | .error e => (p.1, [], some e)
    | .ok s =>
      let q := results_loop llm rest
      (p.1 ++ q.1, make_result row s :: q.2.1, q.2.2)

/-- The required column names (source lines 174-178). -/
def required_columns : List String :=
  ["Country", "Risk_Class", "Medical_Incidence", "Tech_Limitations",
   "Predicate_US", "Population", "Country_Wealth",
   "Market_Maturity", "Affiliate_Readiness", "Digital_Readiness"]

/-- The column check (source line 179):
`all(col in df.columns for col in required_columns)`. -/
def has_required_columns (cols : List String) : Bool :=
  required_columns.all (fun c => cols.contains c)

/-- Separator used by the error message `', '.join(required_columns)`. -/
def required_sep : String := ", "

/-- The error text shown on a failed column check (source line 180). -/
def missing_columns_error : String :=
  "Missing columns in your Excel file. Required: " ++ String.intercalate required_sep required_columns

/-- Embedding of the whole upload flow (source lines 170-206): validate
the columns — on failure show `missing_columns_error` and stop before
the scoring pass and the loop (`st.stop()`, line 181) — otherwise
append the derived score columns and run the per-row loop.  The first
component is every generation request issued. -/
def upload_run (llm : LLM) (cols : List String) (rows : List InputRow) :
    List LLMRequest × Except String (List ResultRow × Option StageError) :=
  if has_required_columns cols then
    let p := results_loop llm (rows.map score_row)
    (p.1, .ok (p.2.1, p.2.2))
  else
    ([], .error missing_columns_error)

/-- Warnings the system can record about a stage output. -/
inductive Warning where
  | MalformedOutputWarning
deriving DecidableEq, Repr

/-- Warnings recorded by the decision stage for a given generation
response.  In the source (lines 145-150) `response.content` is stored
into the state unconditionally and the text is never inspected, so no
warning is recorded for any response. -/
def decision_recorded_warnings (_response : String) : List Warning := []

/-- The mandatory leading token of a well-formed decision response. -/
def decision_token_label : String := "Decision:"

/-- The example input row of the specification (the Brazil row). -/
def brazil_input : InputRow :=
  { Country := "Brazil"
    Risk_Class := 3
    Medical_Incidence := 2
    Tech_Limitations := 1
    Predicate_US := "True"
    Population := 210000000
    Country_Wealth := "Upper-Middle"
    Market_Maturity := 4
    Affiliate_Readiness := 3
    Digital_Readiness := 2 }

/-- A capability that always answers with the fixed text `resp`. -/
def const_llm (resp : String) : LLM := fun _ => .ok resp

/-- A state whose first `k` narrative fields — in the fixed stage order
risk, opportunity, readiness, decision — are present and whose later
ones are absent: exactly the states of a record whose first `k` stages
have completed. -/
def narrative_profile (s : AgentState) (k : Nat) : Prop :=
  (s.risk_summary.isSome ↔ 1 ≤ k) ∧
  (s.opportunity_summary.isSome ↔ 2 ≤ k) ∧
  (s.readiness_summary.isSome ↔ 3 ≤ k) ∧
  (s.final_decision.isSome ↔ 4 ≤ k)

/-- One pipeline step from `s` to `t` keeps the embedded row and every
already-set narrative field, with its value. -/
def state_extends (s t : AgentState) : Prop :=
  t.row = s.row ∧
  (∀ v, s.risk_summary = some v → t.risk_summary = some v) ∧
  (∀ v, s.opportunity_summary = some v → t.opportunity_summary = some v) ∧
  (∀ v, s.readiness_summary = some v → t.readiness_summary = some v) ∧
  (∀ v, s.final_decision = some v → t.final_decision = some v)

/-- A fixed response text used to instantiate theorems. -/
def wit_resp : String := "Overall the level is Low."

/-- The scored example row. -/
def wit_row : Row := score_row brazil_input

/-- The fresh state of the example row. -/
def wit_state : AgentState := init_state wit_row

/-- The example state after the risk stage stored `wit_resp`. -/
def wit_state1 : AgentState := { wit_state with risk_summary := some wit_resp }

/-- A row equal to the example row except for its country name. -/
def argentina_row : Row := score_row { brazil_input with Country := "Argentina" }

/-- A second such row with yet another country name: it agrees with
`argentina_row` on every field except `Country`. -/
def chile_row : Row := score_row { brazil_input with Country := "Chile" }

/-- A state for `argentina_row` part-way through the pipeline. -/
def cexA_state : AgentState :=
  { row := argentina_row
    risk_summary := some "Risk narrative one."
    opportunity_summary := some "Opportunity narrative one." }

/-- The same state with both prior narratives replaced. -/
def cexA_state2 : AgentState :=
  { row := argentina_row
    risk_summary := some "A completely different risk narrative."
    opportunity_summary := some "A completely different opportunity narrative." }

/-- A state for `chile_row` with the same readiness fields as
`cexA_state` but another country. -/
def cexB_state : AgentState :=
  { row := chile_row
    risk_summary := some "Risk narrative two."
    opportunity_summary := some "Opportunity narrative two." }

/-- A state for `argentina_row` with all three narratives present. -/
def cdA_state : AgentState :=
  { row := argentina_row
    risk_summary := some "Shared risk narrative."
    opportunity_summary := some "Shared opportunity narrative."
    readiness_summary := some "Shared readiness narrative." }

/-- The same three narratives over the `chile_row` record. -/
def cdB_state : AgentState :=
  { row := chile_row
    risk_summary := some "Shared risk narrative."
    opportunity_summary := some "Shared opportunity narrative."
    readiness_summary := some "Shared readiness narrative." }

/-- The same three narratives over a row that agrees with
`argentina_row` on `Country` but differs elsewhere. -/
def cdA_state2 : AgentState :=
  { row := score_row { brazil_input with Country := "Argentina", Population := 999, Risk_Class := 5 }
    risk_summary := some "Shared risk narrative."
    opportunity_summary := some "Shared opportunity narrative."
    readiness_summary := some "Shared readiness narrative." }

/-- A decision response with no leading decision token. -/
def malformed_resp : String := "We should move ahead in every market."

/-- The marker letter of the failing record's country: the letter Q
occurs in no fixed prompt text, in no other country name and in no
response used in these runs, so a prompt mentions Qatar exactly when
it contains this letter. -/
def fail_marker : Char := 'Q'

/-- The record whose generation calls are made to fail. -/
def qatar_row : Row := score_row { brazil_input with Country := "Qatar" }

/-- The provider failure returned for the failing record. -/
def gen_fail : GenError := { msg := "timeout" }

/-- Whether a character list mentions `fail_marker` (a structurally
recursive scan, so that concrete runs evaluate). -/
def mentions_marker : List Char → Bool
  | [] => false
  | ch :: rest => if ch = fail_marker then true else mentions_marker rest

/-- A capability that fails exactly on prompts mentioning Qatar: every
prompt of the Qatar record interpolates its country name, so that
record's generation calls always fail, while every call for the
`argentina_row` record succeeds with `wit_resp`. -/
def cex_llm : LLM := fun req =>
  if mentions_marker req.prompt.data then .error gen_fail else .ok wit_resp

/-- The final state the succeeding record reaches under `cex_llm`. -/
def cex_ok_final : AgentState :=
  { row := argentina_row
    risk_summary := some wit_resp
    opportunity_summary := some wit_resp
    readiness_summary := some wit_resp
    final_decision := some wit_resp }

/-- The column list of a batch that misses `Population`. -/
def cols_missing_population : List String :=
  ["Country", "Risk_Class", "Medical_Incidence", "Tech_Limitations",
   "Predicate_US", "Country_Wealth", "Market_Maturity",
   "Affiliate_Readiness", "Digital_Readiness"]

/-- If the risk stage succeeded, the new state is the old one with only
`risk_summary` filled in. -/
theorem risk_ok_shape {llm : LLM} {s t : AgentState}
    (h : (risk_impact_evaluator llm s).2 = .ok t) :
    ∃ c, t = { s with risk_summary := some c } := by
  simp only [risk_impact_evaluator] at h
  split at h
  · simp at h
    exact ⟨_, h.symm⟩
  · simp at h

/-- If the opportunity stage succeeded, the new state is the old one
with only `opportunity_summary` filled in. -/
theorem opportunity_ok_shape {llm : LLM} {s t : AgentState}
    (h : (opportunity_roi_assessor llm s).2 = .ok t) :
    ∃ c, t = { s with opportunity_summary := some c } := by
  simp only [opportunity_roi_assessor] at h
  split at h
  · simp at h
  · split at h
    · simp at h
      exact ⟨_, h.symm⟩
    · simp at h

/-- If the readiness stage succeeded, the new state is the old one with
only `readiness_summary` filled in. -/
theorem readiness_ok_shape {llm : LLM} {s t : AgentState}
    (h : (readiness_capability_analyzer llm s).2 = .ok t) :
    ∃ c, t = { s with readiness_summary := some c } := by
  simp only [readiness_capability_analyzer] at h
  split at h
  · simp at h
    exact ⟨_, h.symm⟩
  · simp at h

/-- If the decision stage succeeded, the new state is the old one with
only `final_decision` filled in. -/
theorem decision_ok_shape {llm : LLM} {s t : AgentState}
    (h : (strategic_decision_coordinator llm s).2 = .ok t) :
    ∃ c, t = { s with final_decision := some c } := by
  simp only [strategic_decision_coordinator] at h
  split at h
  · simp at h
  · split at h
    · simp at h
    · split at h
      · simp at h
      · split at h
        · simp at h
          exact ⟨_, h.symm⟩
        · simp at h

/-- The risk stage always issues exactly the one request built from
the row. -/
theorem risk_fst (llm : LLM) (s : AgentState) :
    (risk_impact_evaluator llm s).1
      = [{ system := risk_system, prompt := risk_prompt s.row }] := by
  simp only [risk_impact_evaluator]
  split <;> rfl

/-- The readiness stage always issues exactly the one request built
from the row. -/
theorem readiness_fst (llm : LLM) (s : AgentState) :
    (readiness_capability_analyzer llm s).1
      = [{ system := readiness_system, prompt := readiness_prompt s.row }] := by
  simp only [readiness_capability_analyzer]
  split <;> rfl

/-- A successful graph run on a row produces exactly the state holding
that row and the four narratives, each present. -/
theorem agent_graph_ok_shape {llm : LLM} {row : Row} {s : AgentState}
    (h : (agent_graph_invoke llm row).2 = .ok s) :
    ∃ c1 c2 c3 c4,
      s = { row := row, risk_summary := some c1, opportunity_summary := some c2,
            readiness_summary := some c3, final_decision := some c4 } := by
  simp only [agent_graph_invoke] at h
  split at h
  · simp at h
  · rename_i s1 h1
    obtain ⟨c1, rfl⟩ := risk_ok_shape h1
    split at h
    · simp at h
    · rename_i s2 h2
      obtain ⟨c2, rfl⟩ := opportunity_ok_shape h2
      split at h
      · simp at h
      · rename_i s3 h3
        obtain ⟨c3, rfl⟩ := readiness_ok_shape h3
        split at h
        · simp at h
        · rename_i s4 h4
          obtain ⟨c4, rfl⟩ := decision_ok_shape h4
          simp at h
          exact ⟨c1, c2, c3, c4, by simp [← h, init_state]⟩

/-- C1: for every row whose risk inputs lie in their valid integer
ranges, the scoring pass yields
`risk_score = (5 - risk_class) + medical_incidence + (3 - tech_limitations)`,
and on the example row (Risk_Class 3, Medical_Incidence 2,
Tech_Limitations 1) the risk score is 6. -/
theorem risk_score_formula (r : InputRow)
    (hrc : 1 ≤ r.Risk_Class ∧ r.Risk_Class ≤ 5)
    (hmi : 1 ≤ r.Medical_Incidence ∧ r.Medical_Incidence ≤ 3)
    (htl : 1 ≤ r.Tech_Limitations ∧ r.Tech_Limitations ≤ 3) :
    (calculate_scores r).1
        = (5 - r.Risk_Class) + r.Medical_Incidence + (3 - r.Tech_Limitations)
      ∧ (calculate_scores brazil_input).1 = 6 :=
  ⟨rfl, by decide⟩

/-- Witness for C1: the example row satisfies the range hypotheses and
its risk score is 6. -/
theorem risk_score_formula_witness :
    (calculate_scores brazil_input).1
        = (5 - brazil_input.Risk_Class) + brazil_input.Medical_Incidence
            + (3 - brazil_input.Tech_Limitations)
      ∧ (calculate_scores brazil_input).1 = 6 :=
  risk_score_formula brazil_input (by decide) (by decide) (by decide)

/-- C2: for every row whose readiness inputs lie in their valid integer
ranges, the scoring pass yields
`readiness_score = market_maturity + affiliate_readiness + digital_readiness`,
and on the example row (Market_Maturity 4, Affiliate_Readiness 3,
Digital_Readiness 2) the readiness score is 9. -/
theorem readiness_score_formula (r : InputRow)
    (hmm : 1 ≤ r.Market_Maturity ∧ r.Market_Maturity ≤ 5)
    (har : 1 ≤ r.Affiliate_Readiness ∧ r.Affiliate_Readiness ≤ 5)
    (hdr : 1 ≤ r.Digital_Readiness ∧ r.Digital_Readiness ≤ 5) :
    (calculate_scores r).2
        = r.Market_Maturity + r.Affiliate_Readiness + r.Digital_Readiness
      ∧ (calculate_scores brazil_input).2 = 9 :=
  ⟨rfl, by decide⟩

/-- Witness for C2: the example row satisfies the range hypotheses and
its readiness score is 9. -/
theorem readiness_score_formula_witness :
    (calculate_scores brazil_input).2
        = brazil_input.Market_Maturity + brazil_input.Affiliate_Readiness
            + brazil_input.Digital_Readiness
      ∧ (calculate_scores brazil_input).2 = 9 :=
  readiness_score_formula brazil_input (by decide) (by decide) (by decide)

/-- C3: during any run of the graph on any row, every reachable state
consists of the narratives of the first `k` completed stages for some
`k` — so fields are populated in the fixed order risk → opportunity →
readiness → decision with no gaps — and consecutive reachable states
preserve the row and every already-set narrative field, so no field is
ever overwritten. -/
theorem narratives_in_order (llm : LLM) (row : Row) :
    (∀ s ∈ pipeline_states llm row, ∃ k ≤ 4, narrative_profile s k) ∧
    List.Chain' state_extends (pipeline_states llm row) := by
  rcases h1 : (risk_impact_evaluator llm (init_state row)).2 with e1 | s1
  · have hl : pipeline_states llm row = [init_state row] := by
      simp [pipeline_states, h1]
    rw [hl]
    refine ⟨?_, by simp⟩
    intro s hs
    simp at hs
    subst hs
    exact ⟨0, by decide, by simp [narrative_profile, init_state]⟩
  · obtain ⟨c1, hs1⟩ := risk_ok_shape h1
    rcases h2 : (opportunity_roi_assessor llm s1).2 with e2 | s2
    · have hl : pipeline_states llm row = [init_state row, s1] := by
        simp [pipeline_states, h1, h2]
      rw [hl]
      refine ⟨?_, by simp [state_extends, hs1, init_state]⟩
      intro s hs
      simp at hs
      rcases hs with rfl | rfl
      · exact ⟨0, by decide, by simp [narrative_profile, init_state]⟩
      · exact ⟨1, by decide, by simp [narrative_profile, hs1, init_state]⟩
    · obtain ⟨c2, hs2⟩ := opportunity_ok_shape h2
      rcases h3 : (readiness_capability_analyzer llm s2).2 with e3 | s3
      · have hl : pipeline_states llm row = [init_state row, s1, s2] := by
          simp [pipeline_states, h1, h2, h3]
        rw [hl]
        refine ⟨?_, by simp [state_extends, hs1, hs2, init_state]⟩
        intro s hs
        simp at hs
        rcases hs with rfl | rfl | rfl
        · exact ⟨0, by decide, by simp [narrative_profile, init_state]⟩
        · exact ⟨1, by decide, by simp [narrative_profile, hs1, init_state]⟩
        · exact ⟨2, by decide, by simp [narrative_profile, hs2, hs1, init_state]⟩
      · obtain ⟨c3, hs3⟩ := readiness_ok_shape h3
        rcases h4 : (strategic_decision_coordinator llm s3).2 with e4 | s4
        · have hl : pipeline_states llm row = [init_state row, s1, s2, s3] := by
            simp [pipeline_states, h1, h2, h3, h4]
          rw [hl]
          refine ⟨?_, by simp [state_extends, hs1, hs2, hs3, init_state]⟩
          intro s hs
          simp at hs
          rcases hs with rfl | rfl | rfl | rfl
          · exact ⟨0, by decide, by simp [narrative_profile, init_state]⟩
          · exact ⟨1, by decide, by simp [narrative_profile, hs1, init_state]⟩
          · exact ⟨2, by decide, by simp [narrative_profile, hs2, hs1, init_state]⟩
          · exact ⟨3, by decide, by simp [narrative_profile, hs3, hs2, hs1, init_state]⟩
        · obtain ⟨c4, hs4⟩ := decision_ok_shape h4
          have hl : pipeline_states llm row = [init_state row, s1, s2, s3, s4] := by
            simp [pipeline_states, h1, h2, h3, h4]
          rw [hl]
          refine ⟨?_, by simp [state_extends, hs1, hs2, hs3, hs4, init_state]⟩
          intro s hs
          simp at hs
          rcases hs with rfl | rfl | rfl | rfl | rfl
          · exact ⟨0, by decide, by simp [narrative_profile, init_state]⟩
          · exact ⟨1, by decide, by simp [narrative_profile, hs1, init_state]⟩
          · exact ⟨2, by decide, by simp [narrative_profile, hs2, hs1, init_state]⟩
          · exact ⟨3, by decide, by simp [narrative_profile, hs3, hs2, hs1, init_state]⟩
          · exact ⟨4, by decide, by simp [narrative_profile, hs4, hs3, hs2, hs1, init_state]⟩

/-- Witness for C3: in a concrete run on the scored example row the
fresh initial state is reachable and has the profile of zero completed
stages. -/
theorem narratives_in_order_witness :
    ∃ k ≤ 4, narrative_profile (init_state wit_row) k :=
  (narratives_in_order (const_llm wit_resp) wit_row).1 (init_state wit_row)
    (by simp [pipeline_states])

/-- C9: every stage that succeeds changes exactly its own narrative
field: the embedded row and the three other narrative fields — in
particular all fields set by earlier stages — are identical before and
after, and the stage's own field is set afterwards. -/
theorem stage_frame (llm : LLM) (s t : AgentState) :
    ((risk_impact_evaluator llm s).2 = .ok t →
      t.row = s.row ∧ t.opportunity_summary = s.opportunity_summary ∧
      t.readiness_summary = s.readiness_summary ∧ t.final_decision = s.final_decision ∧
      t.risk_summary.isSome) ∧
    ((opportunity_roi_assessor llm s).2 = .ok t →
      t.row = s.row ∧ t.risk_summary = s.risk_summary ∧
      t.readiness_summary = s.readiness_summary ∧ t.final_decision = s.final_decision ∧
      t.opportunity_summary.isSome) ∧
    ((readiness_capability_analyzer llm s).2 = .ok t →
      t.row = s.row ∧ t.risk_summary = s.risk_summary ∧
      t.opportunity_summary = s.opportunity_summary ∧ t.final_decision = s.final_decision ∧
      t.readiness_summary.isSome) ∧
    ((strategic_decision_coordinator llm s).2 = .ok t →
      t.row = s.row ∧ t.risk_summary = s.risk_summary ∧
      t.opportunity_summary = s.opportunity_summary ∧ t.readiness_summary = s.readiness_summary ∧
      t.final_decision.isSome) := by
  refine ⟨?_, ?_, ?_, ?_⟩ <;> intro h
  · obtain ⟨c, rfl⟩ := risk_ok_shape h
    simp
  · obtain ⟨c, rfl⟩ := opportunity_ok_shape h
    simp
  · obtain ⟨c, rfl⟩ := readiness_ok_shape h
    simp
  · obtain ⟨c, rfl⟩ := decision_ok_shape h
    simp

/-- Witness for C9: a concrete successful risk-stage step on the
example state keeps the row and the other three fields and sets
`risk_summary`. -/
theorem stage_frame_witness :
    wit_state1.row = wit_state.row ∧
    wit_state1.opportunity_summary = wit_state.opportunity_summary ∧
    wit_state1.readiness_summary = wit_state.readiness_summary ∧
    wit_state1.final_decision = wit_state.final_decision ∧
    wit_state1.risk_summary.isSome :=
  (stage_frame (const_llm wit_resp) wit_state wit_state1).1 (by rfl)

/-- Counterexample to C6 as stated: two states whose rows agree on all
four readiness fields (market maturity, affiliate readiness, digital
readiness, readiness score) can still make the readiness stage issue
different generation requests, because the prompt also interpolates
the row's country. -/
theorem readiness_request_uses_country_cex :
    cexA_state.row.Market_Maturity = cexB_state.row.Market_Maturity ∧
    cexA_state.row.Affiliate_Readiness = cexB_state.row.Affiliate_Readiness ∧
    cexA_state.row.Digital_Readiness = cexB_state.row.Digital_Readiness ∧
    cexA_state.row.Readiness_Score = cexB_state.row.Readiness_Score ∧
    (readiness_capability_analyzer (const_llm wit_resp) cexA_state).1
      ≠ (readiness_capability_analyzer (const_llm wit_resp) cexB_state).1 := by
  decide

/-- C6 amended: the readiness stage's generation request is a function
of the row's country and readiness fields only — two states agreeing
on `Country`, `Market_Maturity`, `Affiliate_Readiness`,
`Digital_Readiness` and `Readiness_Score` produce the same request,
whatever their risk and opportunity narratives and whatever the
capability answers, so the stage does not depend on the outputs of the
risk or opportunity stages. -/
theorem readiness_request_row_function (llm1 llm2 : LLM) (s1 s2 : AgentState)
    (hC : s1.row.Country = s2.row.Country)
    (hM : s1.row.Market_Maturity = s2.row.Market_Maturity)
    (hA : s1.row.Affiliate_Readiness = s2.row.Affiliate_Readiness)
    (hD : s1.row.Digital_Readiness = s2.row.Digital_Readiness)
    (hS : s1.row.Readiness_Score = s2.row.Readiness_Score) :
    (readiness_capability_analyzer llm1 s1).1
      = (readiness_capability_analyzer llm2 s2).1 := by
  rw [readiness_fst, readiness_fst]
  simp [readiness_prompt, hC, hM, hA, hD, hS]

/-- Witness for C6: two concrete states with the same row but entirely
different prior narratives get the same readiness request. -/
theorem readiness_request_row_function_witness :
    (readiness_capability_analyzer (const_llm wit_resp) cexA_state).1
      = (readiness_capability_analyzer (const_llm wit_resp) cexA_state2).1 :=
  readiness_request_row_function (const_llm wit_resp) (const_llm wit_resp)
    cexA_state cexA_state2 rfl rfl rfl rfl rfl

/-- Counterexample to C7 as stated: two states with identical prior
narratives but rows differing in `Country` make the decision stage
issue different generation requests — the decision prompt interpolates
the row's country, a Market Record field, directly. -/
theorem decision_request_uses_country_cex :
    cdA_state.risk_summary = cdB_state.risk_summary ∧
    cdA_state.opportunity_summary = cdB_state.opportunity_summary ∧
    cdA_state.readiness_summary = cdB_state.readiness_summary ∧
    (strategic_decision_coordinator (const_llm wit_resp) cdA_state).1
      ≠ (strategic_decision_coordinator (const_llm wit_resp) cdB_state).1 := by
  decide

/-- C7 amended: the decision stage's generation request is a function
of the three prior narratives, taken verbatim, and of the row's
country only — two states agreeing on `Country` and on the three
narrative fields produce the same request, whatever the rest of their
Market Records. -/
theorem decision_request_narrative_function (llm1 llm2 : LLM) (s1 s2 : AgentState)
    (hC : s1.row.Country = s2.row.Country)
    (h1 : s1.risk_summary = s2.risk_summary)
    (h2 : s1.opportunity_summary = s2.opportunity_summary)
    (h3 : s1.readiness_summary = s2.readiness_summary) :
    (strategic_decision_coordinator llm1 s1).1
      = (strategic_decision_coordinator llm2 s2).1 := by
  simp only [strategic_decision_coordinator]
  rw [← h1, ← h2, ← h3]
  cases s1.risk_summary with
  | none => rfl
  | some rs =>
    cases s1.opportunity_summary with
    | none => rfl
    | some os =>
      cases s1.readiness_summary with
      | none => rfl
      | some rds =>
        have hreq : decision_prompt s1.row rs os rds = decision_prompt s2.row rs os rds := by
          simp [decision_prompt, hC]
        simp only [hreq]
        split <;> split <;> rfl

/-- Witness for C7: two concrete states with the same country and the
same three narratives, but otherwise different Market Records, get the
same decision request. -/
theorem decision_request_narrative_function_witness :
    (strategic_decision_coordinator (const_llm wit_resp) cdA_state).1
      = (strategic_decision_coordinator (const_llm wit_resp) cdA_state2).1 :=
  decision_request_narrative_function (const_llm wit_resp) (const_llm wit_resp)
    cdA_state cdA_state2 rfl rfl rfl rfl

/-- Counterexample to C8 as stated: for a concrete response that lacks
the leading decision token, no `MalformedOutputWarning` is recorded —
the code never inspects the response, so the warning required by the
claim does not exist. -/
theorem no_warning_recorded_cex :
    malformed_resp.take 9 ≠ decision_token_label ∧
    Warning.MalformedOutputWarning ∉ decision_recorded_warnings malformed_resp := by
  decide

/-- C8 amended: for any response text, even one lacking the leading
decision token, the decision stage does not halt — it returns the
updated state — the raw text is stored unchanged as `final_decision`,
and no warning of any kind is recorded (the source has no warning
mechanism). -/
theorem decision_stage_permissive (s : AgentState) (resp : String)
    (h1 : s.risk_summary.isSome) (h2 : s.opportunity_summary.isSome)
    (h3 : s.readiness_summary.isSome) :
    (strategic_decision_coordinator (const_llm resp) s).2
        = .ok { s with final_decision := some resp } ∧
    decision_recorded_warnings resp = [] := by
  refine ⟨?_, rfl⟩
  obtain ⟨rs, hr⟩ := Option.isSome_iff_exists.mp h1
  obtain ⟨os, ho⟩ := Option.isSome_iff_exists.mp h2
  obtain ⟨rds, hd⟩ := Option.isSome_iff_exists.mp h3
  simp only [strategic_decision_coordinator, hr, ho, hd]
  rfl

/-- Witness for C8: applying the decision stage to a concrete state
with the malformed response stores the raw text and records no
warning. -/
theorem decision_stage_permissive_witness :
    (strategic_decision_coordinator (const_llm malformed_resp) cdA_state).2
        = .ok { cdA_state with final_decision := some malformed_resp } ∧
    decision_recorded_warnings malformed_resp = [] :=
  decision_stage_permissive cdA_state malformed_resp (by rfl) (by rfl) (by rfl)

/-- Counterexample to C4 as stated: with a capability under which the
Qatar record's calls always fail and the Argentina record's calls
always succeed, the batch holding the failing record first produces no
result row at all — the failure halts the loop before the succeeding
record runs, even though that record completes with all four fields
when assessed on its own. -/
theorem failing_record_halts_batch_cex :
    ((agent_graph_invoke cex_llm qatar_row).2 = .error (.gen gen_fail)) ∧
    ((agent_graph_invoke cex_llm argentina_row).2 = .ok cex_ok_final) ∧
    (results_loop cex_llm [qatar_row, argentina_row]).2.1 = [] ∧
    (results_loop cex_llm [qatar_row, argentina_row]).2.2 = some (.gen gen_fail) := by
  exact ⟨by decide, by decide, by decide, by decide⟩

/-- C4 amended: one record's failure halts the batch at that record —
records before it complete with all four narrative fields and appear
in the results, while the failing record and every record after it
(succeeding or not) produce no output.  In particular the succeeding
record completes exactly when it precedes the failing one. -/
theorem batch_halts_at_first_failure (llm : LLM) (rS rF : Row) (s : AgentState)
    (hS : (agent_graph_invoke llm rS).2 = .ok s)
    (hF : ∃ e, (agent_graph_invoke llm rF).2 = .error e) :
    (results_loop llm [rS, rF]).2.1 = [make_result rS s] ∧
    (∃ e, (results_loop llm [rS, rF]).2.2 = some e) ∧
    s.risk_summary.isSome ∧ s.opportunity_summary.isSome ∧
    s.readiness_summary.isSome ∧ s.final_decision.isSome ∧
    (results_loop llm [rF, rS]).2.1 = [] := by
  obtain ⟨e, he⟩ := hF
  obtain ⟨c1, c2, c3, c4, rfl⟩ := agent_graph_ok_shape hS
  refine ⟨?_, ⟨e, ?_⟩, by simp, by simp, by simp, by simp, ?_⟩
  · simp [results_loop, hS, he]
  · simp [results_loop, hS, he]
  · simp [results_loop, he]

/-- Witness for C4: the concrete two-record batch with the succeeding
record first keeps that record's full result and halts at the failing
record; with the failing record first nothing is produced. -/
theorem batch_halts_at_first_failure_witness :
    (results_loop cex_llm [argentina_row, qatar_row]).2.1
        = [make_result argentina_row cex_ok_final] ∧
    (∃ e, (results_loop cex_llm [argentina_row, qatar_row]).2.2 = some e) ∧
    cex_ok_final.risk_summary.isSome ∧ cex_ok_final.opportunity_summary.isSome ∧
    cex_ok_final.readiness_summary.isSome ∧ cex_ok_final.final_decision.isSome ∧
    (results_loop cex_llm [qatar_row, argentina_row]).2.1 = [] :=
  batch_halts_at_first_failure cex_llm argentina_row qatar_row cex_ok_final
    (by decide) ⟨.gen gen_fail, by decide⟩

/-- C5: a batch missing at least one required column is rejected
before any stage runs — zero generation requests are issued — with the
column-check error, and the name of each missing column appears in
that error text. -/
theorem missing_column_rejects_batch (llm : LLM) (cols : List String)
    (rows : List InputRow) (c : String)
    (hreq : c ∈ required_columns) (hmiss : c ∉ cols) :
    (upload_run llm cols rows).1 = [] ∧
    (upload_run llm cols rows).2 = .error missing_columns_error ∧
    ∃ p q, missing_columns_error = p ++ (c ++ q) := by
  have hval : has_required_columns cols = false := by
    cases h : has_required_columns cols
    · rfl
    · exfalso
      simp only [has_required_columns, List.all_eq_true] at h
      have hc : c ∈ cols := by simpa using h c hreq
      exact hmiss hc
  refine ⟨by simp [upload_run, hval], by simp [upload_run, hval], ?_⟩
  simp only [required_columns, List.mem_cons, List.not_mem_nil, or_false] at hreq
  rcases hreq with rfl | rfl | rfl | rfl | rfl | rfl | rfl | rfl | rfl | rfl
  · exact ⟨"Missing columns in your Excel file. Required: ",
      ", Risk_Class, Medical_Incidence, Tech_Limitations, Predicate_US, Population, Country_Wealth, Market_Maturity, Affiliate_Readiness, Digital_Readiness", by decide⟩
  · exact ⟨"Missing columns in your Excel file. Required: Country, ",
      ", Medical_Incidence, Tech_Limitations, Predicate_US, Population, Country_Wealth, Market_Maturity, Affiliate_Readiness, Digital_Readiness", by decide⟩
  · exact ⟨"Missing columns in your Excel file. Required: Country, Risk_Class, ",
      ", Tech_Limitations, Predicate_US, Population, Country_Wealth, Market_Maturity, Affiliate_Readiness, Digital_Readiness", by decide⟩
  · exact ⟨"Missing columns in your Excel file. Required: Country, Risk_Class, Medical_Incidence, ",
      ", Predicate_US, Population, Country_Wealth, Market_Maturity, Affiliate_Readiness, Digital_Readiness", by decide⟩
  · exact ⟨"Missing columns in your Excel file. Required: Country, Risk_Class, Medical_Incidence, Tech_Limitations, ",
      ", Population, Country_Wealth, Market_Maturity, Affiliate_Readiness, Digital_Readiness", by decide⟩
  · exact ⟨"Missing columns in your Excel file. Required: Country, Risk_Class, Medical_Incidence, Tech_Limitations, Predicate_US, ",
      ", Country_Wealth, Market_Maturity, Affiliate_Readiness, Digital_Readiness", by decide⟩
  · exact ⟨"Missing columns in your Excel file. Required: Country, Risk_Class, Medical_Incidence, Tech_Limitations, Predicate_US, Population, ",
      ", Market_Maturity, Affiliate_Readiness, Digital_Readiness", by decide⟩
  · exact ⟨"Missing columns in your Excel file. Required: Country, Risk_Class, Medical_Incidence, Tech_Limitations, Predicate_US, Population, Country_Wealth, ",
      ", Affiliate_Readiness, Digital_Readiness", by decide⟩
  · exact ⟨"Missing columns in your Excel file. Required: Country, Risk_Class, Medical_Incidence, Tech_Limitations, Predicate_US, Population, Country_Wealth, Market_Maturity, ",
      ", Digital_Readiness", by decide⟩
  · exact ⟨"Missing columns in your Excel file. Required: Country, Risk_Class, Medical_Incidence, Tech_Limitations, Predicate_US, Population, Country_Wealth, Market_Maturity, Affiliate_Readiness, ",
      "", by decide⟩

/-- Witness for C5: a concrete upload missing the `Population` column
issues zero generation requests, fails with the column-check error,
and that error text contains the name `Population`. -/
theorem missing_column_rejects_batch_witness :
    (upload_run (const_llm wit_resp) cols_missing_population [brazil_input]).1 = [] ∧
    (upload_run (const_llm wit_resp) cols_missing_population [brazil_input]).2
        = .error missing_columns_error ∧
    ∃ p q, missing_columns_error = p ++ (("Population") ++ q) :=
  missing_column_rejects_batch (const_llm wit_resp) cols_missing_population
    [brazil_input] ("Population") (by decide) (by decide)

/-- C10: for a batch in which every record's run succeeds, the output
table has exactly one row per input row, in input order; the i-th
result holds the i-th input row's Country and exactly the five fields
Country, Risk Summary, Opportunity Summary, Readiness Summary, Final
Decision, copied verbatim from that record's final Assessment
State. -/
theorem results_match_rows (llm : LLM) (rows : List Row)
    (hok : ∀ r ∈ rows, ∃ s, (agent_graph_invoke llm r).2 = .ok s) :
    (results_loop llm rows).2.2 = none ∧
    (results_loop llm rows).2.1.length = rows.length ∧
    ∀ i, i < rows.length →
      ∃ r0 c1 c2 c3 c4,
        rows.get? i = some r0 ∧
        (agent_graph_invoke llm r0).2
            = .ok { row := r0, risk_summary := some c1, opportunity_summary := some c2,
                    readiness_summary := some c3, final_decision := some c4 } ∧
        (results_loop llm rows).2.1.get? i
            = some { Country := r0.Country, Risk_Summary := c1, Opportunity_Summary := c2,
                     Readiness_Summary := c3, Final_Decision := c4 } := by
  induction rows with
  | nil =>
    refine ⟨rfl, rfl, ?_⟩
    intro i hi
    exact absurd hi (by simp)
  | cons r rest ih =>
    obtain ⟨s, hs⟩ := hok r (List.mem_cons_self r rest)
    obtain ⟨c1, c2, c3, c4, rfl⟩ := agent_graph_ok_shape hs
    obtain ⟨he, hlen, hidx⟩ := ih (fun x hx => hok x (List.mem_cons_of_mem r hx))
    refine ⟨?_, ?_, ?_⟩
    · simp only [results_loop, hs]
      exact he
    · simp only [results_loop, hs, List.length_cons]
      simp [hlen]
    · intro i hi
      cases i with
      | zero =>
        refine ⟨r, c1, c2, c3, c4, rfl, hs, ?_⟩
        simp only [results_loop, hs]
        simp [make_result]
      | succ j =>
        have hj : j < rest.length := by simpa using hi
        obtain ⟨r0, d1, d2, d3, d4, hget, hg, hr⟩ := hidx j hj
        refine ⟨r0, d1, d2, d3, d4, by simpa using hget, hg, ?_⟩
        simp only [results_loop, hs]
        simpa using hr

/-- Witness for C10: a concrete all-success batch of two rows yields
two result rows, and the first result holds the first row's country
and its four narratives. -/
theorem results_match_rows_witness :
    (results_loop (const_llm wit_resp) [wit_row, argentina_row]).2.2 = none ∧
    (results_loop (const_llm wit_resp) [wit_row, argentina_row]).2.1.length
        = [wit_row, argentina_row].length ∧
    ∀ i, i < [wit_row, argentina_row].length →
      ∃ r0 c1 c2 c3 c4,
        [wit_row, argentina_row].get? i = some r0 ∧
        (agent_graph_invoke (const_llm wit_resp) r0).2
            = .ok { row := r0, risk_summary := some c1, opportunity_summary := some c2,
                    readiness_summary := some c3, final_decision := some c4 } ∧
        (results_loop (const_llm wit_resp) [wit_row, argentina_row]).2.1.get? i
            = some { Country := r0.Country, Risk_Summary := c1, Opportunity_Summary := c2,
                     Readiness_Summary := c3, Final_Decision := c4 } :=
  results_match_rows (const_llm wit_resp) [wit_row, argentina_row]
    (by
      intro r hr
      simp only [List.mem_cons, List.not_mem_nil, or_false] at hr
      rcases hr with rfl | rfl
      · exact ⟨{ row := wit_row, risk_summary := some wit_resp,
                 opportunity_summary := some wit_resp, readiness_summary := some wit_resp,
                 final_decision := some wit_resp }, by decide⟩
      · exact ⟨{ row := argentina_row, risk_summary := some wit_resp,
                 opportunity_summary := some wit_resp, readiness_summary := some wit_resp,
                 final_decision := some wit_resp }, by decide⟩)

end Samd
